import Mathlib

/-!
Shallow embedding of the orchestrator service (agent routing, role-based
authorization, on-behalf-of token exchange, downstream dispatch and audit
events) together with theorems checking the natural-language specification
against it.

Sources embedded (translated function by function):
  orchestrator/src/models.py            -- AgentType, request/response models
  orchestrator/src/agent_selector.py    -- AgentSelector
  orchestrator/src/intelligent_routing.py -- IntelligentRouter.route_with_ai
  orchestrator/src/authorization.py     -- AuthorizationService
  orchestrator/src/auth.py              -- OBOTokenService.acquire_token_on_behalf_of
  orchestrator/src/sub_agent_client.py  -- SubAgentClient.call_sub_agent
  orchestrator/src/audit.py             -- AuditEventType / AuditLogger events
  orchestrator/src/api.py               -- orchestrator_endpoint flow
  orchestrator/src/agent_framework_impl.py -- AgentFrameworkService.run_agent /
                                            run_agent_stream token lifecycle

External effects (subprocess oracle, MSAL token exchange, HTTP transport)
are modelled as explicit outcome parameters fed to the embedded functions,
so every embedded function is a total computable Lean function.
-/

namespace Orch

/-- Python substring containment (`needle in hay` over characters): true iff
`needle` occurs contiguously inside `hay`. -/
def isSubChars (needle : List Char) : List Char → Bool
  | [] => needle.isEmpty
  | c :: rest => needle.isPrefixOf (c :: rest) || isSubChars needle rest

/-- Python `needle in hay` on strings. -/
def strIncludes (hay needle : String) : Bool :=
  isSubChars needle.data hay.data

/-- Python `str.lower()` (ASCII case mapping, as all routing keywords are
ASCII), written over the character list so that it reduces structurally. -/
def lowerStr (s : String) : String :=
  ⟨s.data.map Char.toLower⟩

/-- Whitespace test used by Python `str.strip()` for the characters that can
occur here. -/
def isSpaceChar (c : Char) : Bool :=
  c = ' ' || c = '\t' || c = '\n' || c = '\r'

/-- Python `str.strip()`: drop whitespace from both ends. -/
def stripStr (s : String) : String :=
  ⟨((s.data.dropWhile isSpaceChar).reverse.dropWhile isSpaceChar).reverse⟩

/-- orchestrator/src/models.py, class AgentType(str, Enum). -/
inductive AgentType where
  | PYTHON
  | DOTNET
  | AUTO
deriving DecidableEq, Repr

/-- String value of each AgentType enum member. -/
def AgentType.value : AgentType → String
  | .PYTHON => "python"
  | .DOTNET => "dotnet"
  | .AUTO => "auto"

/-- agent_selector.py, AgentSelector.python_keywords. -/
def python_keywords : List String :=
  ["python", "pandas", "numpy", "data", "analysis", "dataframe", "plot",
   "visualization", "machine learning", "ml", "fastapi", "django", "jupyter",
   "notebook"]

/-- agent_selector.py, AgentSelector.dotnet_keywords. -/
def dotnet_keywords : List String :=
  [".net", "dotnet", "c#", "csharp", "asp.net", "aspnet", "entity framework",
   "ef core", "blazor", "xamarin", "maui",
   "payroll", "pto", "paid time off", "vacation", "time off", "employee",
   "salary", "benefits", "my info", "my information", "my manager",
   "my department", "hire date", "job title", "available pto", "how much pto",
   "pto balance", "upcoming time off"]

/-- agent_selector.py, AgentSelector._select_by_keywords: lower-case the
message, count keyword hits per list (`sum(1 for keyword in ... if keyword in
message_lower)`), pick the strictly higher score, default to PYTHON. -/
def select_by_keywords (message : String) : AgentType :=
  let message_lower := lowerStr message
  let python_score := python_keywords.countP (fun k => strIncludes message_lower k)
  let dotnet_score := dotnet_keywords.countP (fun k => strIncludes message_lower k)
  if python_score > dotnet_score then .PYTHON
  else if dotnet_score > python_score then .DOTNET
  else .PYTHON

/-- Outcome of the external `claude` CLI invocation made by
IntelligentRouter.route_with_ai: either the subprocess machinery raised
(FileNotFoundError or any other exception), or the process completed with a
return code and, when its stdout parsed as JSON, the string
`payload.get("result", "")` (none models json.JSONDecodeError). -/
inductive OracleOutcome where
  | invokeError (msg : String)
  | completed (returncode : Int) (resultField : Option String)
deriving DecidableEq, Repr

/-- intelligent_routing.py, IntelligentRouter.route_with_ai: disabled or any
failure returns none; on success take `result.strip().lower()` and test
`"dotnet" in text` first, then `"python" in text`, else none. -/
def route_with_ai (enabled : Bool) (out : OracleOutcome) : Option AgentType :=
  if !enabled then none
  else
    match out with
    | .invokeError _ => none
    | .completed returncode resultField =>
      if returncode != 0 then none
      else
        match resultField with
        | none => none
        | some r =>
          let response_text := lowerStr (stripStr r)
          if strIncludes response_text "dotnet" then some .DOTNET
          else if strIncludes response_text "python" then some .PYTHON
          else none

/-- agent_selector.py, AgentSelector.select_agent_async: explicit non-AUTO
preference wins; else consult the AI router when enabled; else keywords. -/
def select_agent_async (routerEnabled : Bool) (out : OracleOutcome)
    (message : String) (preferred_agent : AgentType) : AgentType :=
  if preferred_agent != .AUTO then preferred_agent
  else if routerEnabled then
    match route_with_ai routerEnabled out with
    | some a => a
    | none => select_by_keywords message
  else select_by_keywords message

/-- agent_selector.py, AgentSelector.select_agent (sync wrapper): explicit
non-AUTO preference wins; else keyword routing. -/
def select_agent (message : String) (preferred_agent : AgentType) : AgentType :=
  if preferred_agent != .AUTO then preferred_agent
  else select_by_keywords message

/-- authorization.py, AuthorizationService.ROLE_PERMISSIONS, "agents" entry
per role name (unknown roles give the empty permission set, matching
`ROLE_PERMISSIONS.get(role, {}).get("agents", [])`). -/
def rolePermissionAgents (role : String) : List AgentType :=
  if role = "admin" then [.PYTHON, .DOTNET]
  else if role = "analyst" then [.PYTHON]
  else if role = "user" then [.DOTNET]
  else if role = "viewer" then []
  else []

/-- authorization.py, AuthorizationService.ALLOW_ANY_AUTHENTICATED_USER class
constant (the permissive default in the source). Theorems about the
denied-access scenario instantiate the flag at false, the administratively
disabled setting the spec scenario stipulates. -/
def ALLOW_ANY_AUTHENTICATED_USER : Bool := true

/-- authorization.py, AuthorizationService.check_agent_access: admin role
first, then each held role's allowed-agent set, then the
allow-any-authenticated-user fallback. -/
def check_agent_access (allowAny : Bool) (roles : List String)
    (agent_type : AgentType) : Bool :=
  if roles.contains "admin" then true
  else if roles.any (fun r => (rolePermissionAgents r).contains agent_type) then true
  else allowAny

/-- FastAPI HTTPException as raised by the orchestrator: status code plus
detail string. -/
structure HTTPErr where
  status_code : Nat
  detail : String
deriving DecidableEq, Repr

/-- Python `repr` of a list of strings, as interpolated into the 403 detail
message by require_agent_access (\x27 is the single-quote character). -/
def pyListRepr (roles : List String) : String :=
  "[" ++ String.intercalate ", " (roles.map (fun r => "\x27" ++ r ++ "\x27")) ++ "]"

/-- Detail string of the 403 raised by require_agent_access. -/
def accessDeniedDetail (roles : List String) (agent_type : AgentType) : String :=
  "User with roles " ++ pyListRepr roles ++
    " does not have permission to access " ++ agent_type.value ++ " agent"

/-- authorization.py, AuthorizationService.require_agent_access: raise a 403
HTTPException when check_agent_access denies. -/
def require_agent_access (allowAny : Bool) (roles : List String)
    (agent_type : AgentType) : Except HTTPErr Unit :=
  if check_agent_access allowAny roles agent_type then .ok ()
  else .error ⟨403, accessDeniedDetail roles agent_type⟩

/-- config.py fields that the embedded flow consults. -/
structure Settings where
  REQUIRE_AUTH : Bool
  AZURE_CLIENT_ID : String
  AZURE_CLIENT_SECRET : String
deriving DecidableEq, Repr

/-- Outcome of `msal_app.acquire_token_on_behalf_of`: a result dict holding
an access_token, a result dict without one (whose error_description, default
"Unknown error", is reported), or a raised exception. -/
inductive MsalOutcome where
  | tokenResult (access_token : String)
  | errorResult (error_description : String)
  | raised (msg : String)
deriving DecidableEq, Repr

/-- Detail of the 500 raised when the confidential client is absent. -/
def notConfiguredDetail : String :=
  "OBO not configured. Set AZURE_CLIENT_ID and AZURE_CLIENT_SECRET."

/-- auth.py, OBOTokenService.acquire_token_on_behalf_of. The service builds
its msal ConfidentialClientApplication only when both AZURE_CLIENT_ID and
AZURE_CLIENT_SECRET are non-empty (Python truthiness in `__init__`); with no
app it raises 500 "OBO not configured" before the try block. Inside the try
block, the 401 HTTPException raised for a token-less msal result is itself
an Exception, so the blanket `except Exception` re-wraps it as a 500 whose
detail embeds `str(e)` = "401: Failed to acquire OBO token: ...". -/
def acquire_token_on_behalf_of (s : Settings) (msal : MsalOutcome) :
    Except HTTPErr String :=
  if s.AZURE_CLIENT_ID.isEmpty || s.AZURE_CLIENT_SECRET.isEmpty then
    .error ⟨500, notConfiguredDetail⟩
  else
    match msal with
    | .tokenResult t => .ok t
    | .errorResult d =>
        .error ⟨500, "OBO token acquisition failed: 401: Failed to acquire OBO token: " ++ d⟩
    | .raised m =>
        .error ⟨500, "OBO token acquisition failed: " ++ m⟩

/-- Python truthiness of an Optional[str]: None and "" are falsy. -/
def truthyStr (o : Option String) : Bool :=
  match o with
  | none => false
  | some s => !s.isEmpty

/-- The outbound HTTP request a sub-agent call constructs: headers and the
JSON payload {message, conversation_id, metadata}. -/
structure SentRequest where
  headers : List (String × String)
  payload_message : String
  payload_conversation_id : Option String
  payload_metadata : List (String × String)
deriving DecidableEq, Repr

/-- models.py, SubAgentResponse. -/
structure SubAgentResponse where
  agent_type : String
  message : String
  status : String
  metadata : List (String × String)
deriving DecidableEq, Repr

/-- Outcome of the httpx POST to the sub-agent: a 2xx response carrying the
parsed JSON dict fields (each Option models a possibly missing key); a 2xx
response whose body is not a JSON dict, on which `response.json()` raises
json.JSONDecodeError or `data.get` raises AttributeError (msg is `str` of
that exception); an HTTPStatusError raised by raise_for_status (estr is
`str(e)`); or a RequestError for connection failure / timeout. -/
inductive DownstreamOutcome where
  | ok (message status : Option String) (metadata : Option (List (String × String)))
  | okMalformed (msg : String)
  | statusError (code : Nat) (estr : String)
  | reqError (estr : String)
deriving DecidableEq, Repr

/-- Exception escaping call_sub_agent: the ValueError _get_agent_url raises
for an unknown agent type, or an exception the two httpx handlers do not
catch (json.JSONDecodeError / AttributeError from the 2xx body parse),
which propagates to the caller. -/
inductive PyErr where
  | valueError (msg : String)
  | uncaught (msg : String)
deriving DecidableEq, Repr

/-- Message of an escaped exception (`str(e)`). -/
def PyErr.msg : PyErr → String
  | .valueError m => m
  | .uncaught m => m

/-- sub_agent_client.py, SubAgentClient.call_sub_agent. _get_agent_url raises
ValueError for AUTO; otherwise the request is built with an Authorization
bearer header exactly when `obo_token and settings.REQUIRE_AUTH` is truthy.
The try block catches only httpx.HTTPStatusError and httpx.RequestError,
converting them to status="error" responses; a parse failure on a 2xx body
(.okMalformed) matches neither handler and escapes to the caller. Returns
the request that was sent together with the SubAgentResponse. -/
def call_sub_agent (s : Settings) (agent_type : AgentType) (message : String)
    (obo_token : Option String) (conversation_id : Option String)
    (metadata : Option (List (String × String))) (outcome : DownstreamOutcome) :
    Except PyErr (SentRequest × SubAgentResponse) :=
  if agent_type = .AUTO then
    .error (.valueError ("Unknown agent type: " ++ agent_type.value))
  else
    let headers :=
      if truthyStr obo_token && s.REQUIRE_AUTH then
        [("Content-Type", "application/json"),
         ("Authorization", "Bearer " ++ obo_token.getD "")]
      else
        [("Content-Type", "application/json")]
    let sent : SentRequest :=
      ⟨headers, message, conversation_id, metadata.getD []⟩
    match outcome with
    | .ok m st md =>
        .ok (sent, ⟨agent_type.value, m.getD "", st.getD "unknown", md.getD []⟩)
    | .okMalformed m =>
        .error (.uncaught m)
    | .statusError code estr =>
        .ok (sent, ⟨agent_type.value,
          "Error calling " ++ agent_type.value ++ " agent: " ++ toString code,
          "error", [("error", estr)]⟩)
    | .reqError estr =>
        .ok (sent, ⟨agent_type.value,
          "Failed to reach " ++ agent_type.value ++ " agent: " ++ estr,
          "error", [("error", estr)]⟩)

/-- audit.py, AuditEventType. -/
inductive AuditEventType where
  | jwt_validation_success
  | jwt_validation_failure
  | obo_token_acquired
  | obo_token_failed
  | agent_selected
  | agent_call_success
  | agent_call_failure
  | authorization_denied
  | user_action
deriving DecidableEq, Repr

/-- audit.py, one structured audit event (identity fields and timing omitted;
the error field carries the detail["error"] / detail["reason"] payload). -/
structure AuditEvent where
  event_type : AuditEventType
  agent_type : Option String
  success : Bool
  error : Option String
deriving DecidableEq, Repr

/-- Validated caller claims as used by the endpoint (roles from the JWT). -/
structure UserClaims where
  oid : String
  name : String
  email : String
  roles : List String
deriving DecidableEq, Repr

/-- models.py, OrchestratorRequest. -/
structure OrchestratorRequest where
  message : String
  conversation_id : Option String
  preferred_agent : AgentType
  metadata : List (String × String)
deriving DecidableEq, Repr

/-- models.py, OrchestratorResponse (metadata reduced to the
obo_token_acquired flag the flow computes). -/
structure OrchestratorResponse where
  message : String
  status : String
  selected_agent : String
  conversation_id : Option String
  sub_agent_responses : List SubAgentResponse
  obo_token_acquired : Bool
deriving DecidableEq, Repr

/-- Result of one request through the orchestrator endpoint: the HTTP-level
result, the audit events emitted in order, and the downstream request that
was sent, when dispatch was reached. -/
structure FlowResult where
  result : Except HTTPErr OrchestratorResponse
  events : List AuditEvent
  sent : Option SentRequest
deriving Repr

/-- api.py, orchestrator_endpoint steps 3-4: call the selected sub-agent and
wrap its answer. call_sub_agent catches all transport failures, so the
`except` branch of the api (agent_call_failure audit then re-raise) only runs
when call_sub_agent itself raises; the normal path always audits
agent_call_success and returns status="success" at the top level. -/
def dispatchStep (s : Settings) (selected : AgentType) (req : OrchestratorRequest)
    (obo_token : Option String) (evs : List AuditEvent)
    (downstream : DownstreamOutcome) : FlowResult :=
  match call_sub_agent s selected req.message obo_token req.conversation_id
      (some req.metadata) downstream with
  | .ok (sent, resp) =>
      { result := .ok
          { message := resp.message
            status := "success"
            selected_agent := selected.value
            conversation_id := req.conversation_id
            sub_agent_responses := [resp]
            obo_token_acquired := obo_token.isSome }
        events := evs ++
          [{ event_type := .agent_call_success, agent_type := some selected.value,
             success := true, error := none }]
        sent := some sent }
  | .error v =>
      { result := .error ⟨500, v.msg⟩
        events := evs ++
          [{ event_type := .agent_call_failure, agent_type := some selected.value,
             success := false, error := some v.msg }]
        sent := none }

/-- api.py, orchestrator_endpoint (POST /agent/legacy): audit the validated
JWT, select the agent, audit the selection, gate on require_agent_access
(auditing authorization_denied before re-raising a 403), acquire the OBO
token when REQUIRE_AUTH and credentials are present (auditing the exchange
outcome, failure terminating the request), then dispatch. -/
def orchestrator_endpoint (s : Settings) (allowAny routerEnabled : Bool)
    (req : OrchestratorRequest) (current_user : UserClaims)
    (credentials : Option String) (oracle : OracleOutcome)
    (msal : MsalOutcome) (downstream : DownstreamOutcome) : FlowResult :=
  let selected := select_agent_async routerEnabled oracle req.message req.preferred_agent
  let ev1 : List AuditEvent :=
    [{ event_type := .jwt_validation_success, agent_type := none,
       success := true, error := none },
     { event_type := .agent_selected, agent_type := some selected.value,
       success := true, error := none }]
  match require_agent_access allowAny current_user.roles selected with
  | .error e =>
      { result := .error e
        events := ev1 ++
          [{ event_type := .authorization_denied, agent_type := none,
             success := false, error := some e.detail }]
        sent := none }
  | .ok _ =>
      if s.REQUIRE_AUTH && credentials.isSome then
        match acquire_token_on_behalf_of s msal with
        | .ok t =>
            dispatchStep s selected req (some t)
              (ev1 ++ [{ event_type := .obo_token_acquired,
                         agent_type := some selected.value,
                         success := true, error := none }]) downstream
        | .error e =>
            { result := .error e
              events := ev1 ++
                [{ event_type := .obo_token_failed, agent_type := some selected.value,
                   success := false, error := some e.detail }]
              sent := none }
      else
        dispatchStep s selected req none ev1 downstream

/-- Mutable state of agent_framework_impl.py, AgentFrameworkService, reduced
to what run_agent / run_agent_stream touch: whether `self.agent` initialized,
the stored per-request user token, and the conversation-id keys of
`self.threads`. -/
structure AFState where
  agentInit : Bool
  current_user_token : Option String
  threads : List String
deriving DecidableEq, Repr

/-- Outcome of `self.agent.run` / `run_stream` (and the thread bookkeeping
around it): normal completion with the result text, or a raised exception. -/
inductive RunOutcome where
  | success (text : String)
  | raised (msg : String)
deriving DecidableEq, Repr

/-- Thread-map bookkeeping of run_agent: create an entry on first use of a
conversation id, reuse it afterwards. -/
def updateThreads (threads : List String) (conversation_id : Option String) :
    List String :=
  match conversation_id with
  | none => threads
  | some cid => if threads.contains cid then threads else threads ++ [cid]

/-- agent_framework_impl.py, AgentFrameworkService.run_agent: early return
when the agent is uninitialized (state untouched); otherwise store the user
token, update threads, run, and in the `finally` clause clear the token
whether the run returned or raised. Returns the new state and the response
text. -/
def run_agent (st : AFState) (_message : String) (conversation_id : Option String)
    (user_token : Option String) (outcome : RunOutcome) : AFState × String :=
  if !st.agentInit then
    (st, "Agent not initialized. Please check Azure OpenAI configuration.")
  else
    let st1 : AFState :=
      { st with current_user_token := user_token,
                threads := updateThreads st.threads conversation_id }
    let text :=
      match outcome with
      | .success t => t
      | .raised m => "Error processing request: " ++ m
    ({ st1 with current_user_token := none }, text)

/-- agent_framework_impl.py, AgentFrameworkService.run_agent_stream: same
token lifecycle as run_agent, yielding delta/error chunks instead of one
text; the `finally` clause clears the token when the generator finishes. -/
def run_agent_stream (st : AFState) (_message : String)
    (conversation_id : Option String) (user_token : Option String)
    (outcome : RunOutcome) : AFState × List String :=
  if !st.agentInit then
    (st, ["error: Agent not initialized. Please check Azure OpenAI configuration."])
  else
    let st1 : AFState :=
      { st with current_user_token := user_token,
                threads := updateThreads st.threads conversation_id }
    let chunks :=
      match outcome with
      | .success t => ["delta: " ++ t]
      | .raised m => ["error: Error processing request: " ++ m]
    ({ st1 with current_user_token := none }, chunks)

/-- One invocation of the agent-framework service. -/
inductive Invocation where
  | run (message : String) (conversation_id : Option String)
      (user_token : Option String) (outcome : RunOutcome)
  | stream (message : String) (conversation_id : Option String)
      (user_token : Option String) (outcome : RunOutcome)
deriving DecidableEq, Repr

/-- State after one invocation. -/
def applyInvocation (st : AFState) : Invocation → AFState
  | .run m c u o => (run_agent st m c u o).1
  | .stream m c u o => (run_agent_stream st m c u o).1

/-- State after a sequence of invocations. -/
def runSeq (st : AFState) : List Invocation → AFState
  | [] => st
  | i :: rest => runSeq (applyInvocation st i) rest

/-- Concrete configuration: authentication disabled (the config.py default),
no confidential client registered. -/
def sNoAuth : Settings := ⟨false, "", ""⟩

/-- Concrete configuration: authentication required but the confidential
client (AZURE_CLIENT_ID / AZURE_CLIENT_SECRET) absent. -/
def sAuthNotConfigured : Settings := ⟨true, "", ""⟩

/-- The synthetic identity substituted when REQUIRE_AUTH is false. -/
def testUser : UserClaims := ⟨"test", "test", "test@example.com", []⟩

/-- A caller holding exactly the viewer role (spec Scenario B). -/
def viewerUser : UserClaims := ⟨"vid", "Viewer", "viewer@example.com", ["viewer"]⟩

/-- Request of spec Scenario B: "analyze this dataframe" with auto
preference. -/
def scenarioBReq : OrchestratorRequest := ⟨"analyze this dataframe", none, .AUTO, []⟩

/-- Request used for the downstream-timeout scenarios (explicit python
preference). -/
def timeoutReq : OrchestratorRequest := ⟨"hello", some "conv1", .PYTHON, []⟩

/-- Keyword routing only ever returns one of the two concrete agents. -/
lemma select_by_keywords_cases (m : String) :
    select_by_keywords m = .PYTHON ∨ select_by_keywords m = .DOTNET := by
  simp only [select_by_keywords]
  split
  · exact Or.inl rfl
  · split
    · exact Or.inr rfl
    · exact Or.inl rfl

/-- The AI router yields no selection or one of the two concrete agents. -/
lemma route_with_ai_cases (e : Bool) (o : OracleOutcome) :
    route_with_ai e o = none ∨ route_with_ai e o = some .PYTHON ∨
      route_with_ai e o = some .DOTNET := by
  simp only [route_with_ai]
  split
  · exact Or.inl rfl
  · match o with
    | .invokeError m => exact Or.inl rfl
    | .completed rc rf =>
      dsimp only
      split
      · exact Or.inl rfl
      · match rf with
        | none => exact Or.inl rfl
        | some r =>
          dsimp only
          split
          · exact Or.inr (Or.inr rfl)
          · split
            · exact Or.inr (Or.inl rfl)
            · exact Or.inl rfl

/-- Async selection never returns the AUTO placeholder. -/
lemma select_agent_async_ne_auto (re : Bool) (out : OracleOutcome) (m : String)
    (p : AgentType) : select_agent_async re out m p ≠ .AUTO := by
  simp only [select_agent_async]
  split
  · intro h; subst h; simp_all
  · rename_i hp
    simp only [bne_iff_ne, ne_eq, not_not] at hp
    split
    · rcases route_with_ai_cases re out with h | h | h
      · rcases select_by_keywords_cases m with h2 | h2 <;> simp [h, h2]
      · simp [h]
      · simp [h]
    · rcases select_by_keywords_cases m with h2 | h2 <;> simp [h2]

/-- A successful sub-agent call sent exactly the headers call_sub_agent
builds from the token and the REQUIRE_AUTH flag. -/
lemma call_sub_agent_ok_sent (s : Settings) (agent_type : AgentType) (message : String)
    (obo_token conversation_id : Option String)
    (metadata : Option (List (String × String))) (outcome : DownstreamOutcome)
    (sent : SentRequest) (resp : SubAgentResponse)
    (h : call_sub_agent s agent_type message obo_token conversation_id metadata outcome =
      .ok (sent, resp)) :
    sent.headers =
      (if truthyStr obo_token && s.REQUIRE_AUTH then
        [("Content-Type", "application/json"),
         ("Authorization", "Bearer " ++ obo_token.getD "")]
      else [("Content-Type", "application/json")]) := by
  simp only [call_sub_agent] at h
  split at h
  · cases h
  · match outcome with
    | .ok m st md => cases h; rfl
    | .okMalformed m => cases h
    | .statusError code estr => cases h; rfl
    | .reqError estr => cases h; rfl

/-- Membership facts about the Authorization header in the two possible
header lists. -/
lemma auth_header_mem (headers : List (String × String)) (obo_token : Option String)
    (s : Settings)
    (hh : headers =
      (if truthyStr obo_token && s.REQUIRE_AUTH then
        [("Content-Type", "application/json"),
         ("Authorization", "Bearer " ++ obo_token.getD "")]
      else [("Content-Type", "application/json")])) :
    ((∃ v, ("Authorization", v) ∈ headers) ↔
       (truthyStr obo_token && s.REQUIRE_AUTH) = true) ∧
    (∀ v, ("Authorization", v) ∈ headers → v = "Bearer " ++ obo_token.getD "") := by
  subst hh
  split
  · rename_i hcond
    constructor
    · constructor
      · intro _; exact hcond
      · intro _
        exact ⟨"Bearer " ++ obo_token.getD "", by simp⟩
    · intro v hv
      simp only [List.mem_cons, List.mem_singleton, List.not_mem_nil, or_false] at hv
      rcases hv with hv | hv
      · exact absurd (congrArg Prod.fst hv) (by simp)
      · exact congrArg Prod.snd hv
  · rename_i hcond
    constructor
    · constructor
      · intro hex
        obtain ⟨v, hv⟩ := hex
        simp only [List.mem_singleton] at hv
        exact absurd (congrArg Prod.fst hv) (by simp)
      · intro hc; exact absurd hc hcond
    · intro v hv
      simp only [List.mem_singleton] at hv
      exact absurd (congrArg Prod.fst hv) (by simp)

/-- The request dispatchStep reports as sent carries the headers built from
its token argument. -/
lemma dispatchStep_sent_headers (s : Settings) (sel : AgentType)
    (req : OrchestratorRequest) (obo_token : Option String)
    (evs : List AuditEvent) (downstream : DownstreamOutcome) (sent : SentRequest)
    (h : (dispatchStep s sel req obo_token evs downstream).sent = some sent) :
    sent.headers =
      (if truthyStr obo_token && s.REQUIRE_AUTH then
        [("Content-Type", "application/json"),
         ("Authorization", "Bearer " ++ obo_token.getD "")]
      else [("Content-Type", "application/json")]) := by
  simp only [dispatchStep] at h
  split at h
  · rename_i pr hcall
    simp only [Option.some.injEq] at h
    subst h
    exact call_sub_agent_ok_sent _ _ _ _ _ _ _ _ _ hcall
  · cases h

/-- Any Authorization header value in a request the endpoint actually sent is
the bearer form of a token produced by the delegated exchange, and only
exists under REQUIRE_AUTH. -/
lemma endpoint_auth_header (s : Settings) (allowAny routerEnabled : Bool)
    (req : OrchestratorRequest) (current_user : UserClaims)
    (credentials : Option String) (oracle : OracleOutcome) (msal : MsalOutcome)
    (downstream : DownstreamOutcome) (sent : SentRequest)
    (h : (orchestrator_endpoint s allowAny routerEnabled req current_user credentials
       oracle msal downstream).sent = some sent) :
    ∀ v, ("Authorization", v) ∈ sent.headers →
      s.REQUIRE_AUTH = true ∧
      ∃ t, acquire_token_on_behalf_of s msal = .ok t ∧ v = "Bearer " ++ t := by
  simp only [orchestrator_endpoint] at h
  split at h
  · cases h
  · split at h
    · rename_i hra
      split at h
      · rename_i t hacq
        intro v hv
        have hh := dispatchStep_sent_headers _ _ _ _ _ _ _ h
        have hb := (auth_header_mem _ _ _ hh).2 v hv
        have hc := (auth_header_mem _ _ _ hh).1.mp ⟨v, hv⟩
        rw [Bool.and_eq_true] at hc
        exact ⟨hc.2, t, hacq, hb⟩
      · cases h
    · intro v hv
      have hh := dispatchStep_sent_headers _ _ _ _ _ _ _ h
      have hc := (auth_header_mem _ _ _ hh).1.mp ⟨v, hv⟩
      simp only [truthyStr, Bool.false_and] at hc
      cases hc

/-- C1: a downstream dispatch carries a bearer Authorization header exactly
when a delegated OBO credential is present (truthy) and REQUIRE_AUTH is
enabled, and the only bearer value ever sent is the delegated credential
produced by the exchange; the inbound caller credential appears in the
headers only if the exchange itself returned that very string, so a caller
credential distinct from every exchange output never appears. -/
theorem c1_downstream_auth_header :
    (∀ (s : Settings) (agent_type : AgentType) (message : String)
       (obo_token conversation_id : Option String)
       (metadata : Option (List (String × String))) (outcome : DownstreamOutcome)
       (sent : SentRequest) (resp : SubAgentResponse),
       call_sub_agent s agent_type message obo_token conversation_id metadata outcome =
         .ok (sent, resp) →
       ((∃ v, ("Authorization", v) ∈ sent.headers) ↔
          (truthyStr obo_token && s.REQUIRE_AUTH) = true) ∧
       (∀ v, ("Authorization", v) ∈ sent.headers →
          v = "Bearer " ++ obo_token.getD "")) ∧
    (∀ (s : Settings) (allowAny routerEnabled : Bool) (req : OrchestratorRequest)
       (current_user : UserClaims) (credentials : Option String)
       (oracle : OracleOutcome) (msal : MsalOutcome) (downstream : DownstreamOutcome)
       (sent : SentRequest),
       (orchestrator_endpoint s allowAny routerEnabled req current_user credentials
          oracle msal downstream).sent = some sent →
       (∀ v, ("Authorization", v) ∈ sent.headers →
          s.REQUIRE_AUTH = true ∧
          ∃ t, acquire_token_on_behalf_of s msal = .ok t ∧ v = "Bearer " ++ t) ∧
       (∀ c, credentials = some c →
          (∀ t, acquire_token_on_behalf_of s msal = .ok t → t ≠ c) →
          ("Authorization", "Bearer " ++ c) ∉ sent.headers)) := by
  constructor
  · intro s agent_type message obo_token conversation_id metadata outcome sent resp h
    exact auth_header_mem _ _ _ (call_sub_agent_ok_sent _ _ _ _ _ _ _ _ _ h)
  · intro s allowAny routerEnabled req current_user credentials oracle msal downstream
      sent h
    refine ⟨endpoint_auth_header _ _ _ _ _ _ _ _ _ _ h, ?_⟩
    intro c hc hne hmem
    obtain ⟨-, t, hacq, hbearer⟩ :=
      endpoint_auth_header _ _ _ _ _ _ _ _ _ _ h _ hmem
    have hdata := congrArg String.data hbearer
    simp only [String.data_append] at hdata
    exact hne t hacq (String.ext (List.append_cancel_left hdata).symm)

/-- C1 witness: with a present token and REQUIRE_AUTH the header is the
bearer of the OBO token; with REQUIRE_AUTH disabled no Authorization header
is sent. -/
theorem c1_downstream_auth_header_witness :
    (∃ sent resp,
       call_sub_agent ⟨true, "cid", "csec"⟩ .PYTHON "hi" (some "obo123") none none
         (.ok (some "pong") (some "success") none) = .ok (sent, resp) ∧
       (∃ v, ("Authorization", v) ∈ sent.headers) ∧
       (∀ v, ("Authorization", v) ∈ sent.headers → v = "Bearer obo123")) ∧
    (∃ sent resp,
       call_sub_agent ⟨false, "", ""⟩ .PYTHON "hi" (some "obo123") none none
         (.ok (some "pong") (some "success") none) = .ok (sent, resp) ∧
       ¬∃ v, ("Authorization", v) ∈ sent.headers) := by
  constructor
  · refine ⟨_, _, rfl, ?_, ?_⟩
    · exact (c1_downstream_auth_header.1 ⟨true, "cid", "csec"⟩ .PYTHON "hi"
        (some "obo123") none none (.ok (some "pong") (some "success") none) _ _
        rfl).1.mpr (by decide)
    · exact (c1_downstream_auth_header.1 ⟨true, "cid", "csec"⟩ .PYTHON "hi"
        (some "obo123") none none (.ok (some "pong") (some "success") none) _ _
        rfl).2
  · refine ⟨_, _, rfl, ?_⟩
    intro hex
    exact absurd ((c1_downstream_auth_header.1 ⟨false, "", ""⟩ .PYTHON "hi"
      (some "obo123") none none (.ok (some "pong") (some "success") none) _ _
      rfl).1.mp hex) (by decide)

/-- C2: with the confidential client absent (empty client id or secret),
every delegated-exchange attempt fails with the 500 not-configured error
(never a 403), and in the full flow with authentication succeeding and
authorization passing, the request fails with that 500 and an
obo_token_failed audit event carrying the not-configured reason is
recorded. -/
theorem c2_obo_not_configured (s : Settings)
    (hnc : s.AZURE_CLIENT_ID = "" ∨ s.AZURE_CLIENT_SECRET = "") :
    (∀ msal, acquire_token_on_behalf_of s msal = .error ⟨500, notConfiguredDetail⟩) ∧
    (∀ (allowAny routerEnabled : Bool) (req : OrchestratorRequest)
       (current_user : UserClaims) (credentials : Option String)
       (oracle : OracleOutcome) (msal : MsalOutcome) (downstream : DownstreamOutcome),
       s.REQUIRE_AUTH = true → credentials.isSome = true →
       check_agent_access allowAny current_user.roles
         (select_agent_async routerEnabled oracle req.message req.preferred_agent) =
         true →
       (orchestrator_endpoint s allowAny routerEnabled req current_user credentials
          oracle msal downstream).result = .error ⟨500, notConfiguredDetail⟩ ∧
       (∀ d, (orchestrator_endpoint s allowAny routerEnabled req current_user
          credentials oracle msal downstream).result ≠ .error ⟨403, d⟩) ∧
       ({ event_type := .obo_token_failed,
          agent_type := some (select_agent_async routerEnabled oracle req.message
            req.preferred_agent).value,
          success := false, error := some notConfiguredDetail } : AuditEvent) ∈
         (orchestrator_endpoint s allowAny routerEnabled req current_user credentials
            oracle msal downstream).events) := by
  have hcond : (s.AZURE_CLIENT_ID.isEmpty || s.AZURE_CLIENT_SECRET.isEmpty) = true := by
    rcases hnc with h | h
    · rw [h, show "".isEmpty = true from rfl, Bool.true_or]
    · rw [h, show "".isEmpty = true from rfl, Bool.or_true]
  have hacq : ∀ msal, acquire_token_on_behalf_of s msal =
      .error ⟨500, notConfiguredDetail⟩ := by
    intro msal
    simp only [acquire_token_on_behalf_of]
    rw [if_pos hcond]
  refine ⟨hacq, ?_⟩
  intro allowAny routerEnabled req current_user credentials oracle msal downstream
    hra hcred hauthz
  have hreq : require_agent_access allowAny current_user.roles
      (select_agent_async routerEnabled oracle req.message req.preferred_agent) =
      .ok () := by
    simp only [require_agent_access]
    rw [if_pos hauthz]
  simp only [orchestrator_endpoint]
  rw [hreq, hra, hcred, Bool.and_self, if_pos rfl, hacq msal]
  refine ⟨rfl, ?_, ?_⟩
  · intro d hd
    have h5 : (500 : Nat) = 403 := congrArg (fun r => match r with
      | Except.error e => e.status_code
      | Except.ok _ => 0) hd
    exact absurd h5 (by decide)
  · simp

/-- C2 witness: concrete not-configured flow with authentication on,
credentials present and the permissive policy letting authorization pass. -/
theorem c2_obo_not_configured_witness :
    acquire_token_on_behalf_of sAuthNotConfigured (.tokenResult "tok") =
      .error ⟨500, notConfiguredDetail⟩ ∧
    (orchestrator_endpoint sAuthNotConfigured true false timeoutReq testUser
       (some "inbound") (.completed 0 none) (.tokenResult "tok")
       (.ok none none none)).result = .error ⟨500, notConfiguredDetail⟩ ∧
    ({ event_type := .obo_token_failed, agent_type := some "python",
       success := false, error := some notConfiguredDetail } : AuditEvent) ∈
      (orchestrator_endpoint sAuthNotConfigured true false timeoutReq testUser
         (some "inbound") (.completed 0 none) (.tokenResult "tok")
         (.ok none none none)).events := by
  have h := c2_obo_not_configured sAuthNotConfigured (Or.inl rfl)
  have h2 := h.2 true false timeoutReq testUser (some "inbound")
    (.completed 0 none) (.tokenResult "tok") (.ok none none none)
    rfl rfl (by decide)
  exact ⟨h.1 (.tokenResult "tok"), h2.1, h2.2.2⟩

/-- C3 counterexample: on a downstream connection failure the endpoint
returns HTTP 200 whose top-level status field is "success", not "error", and
no agent_call_failure audit event is recorded (the recorded event is
agent_call_success), contradicting the claim that the response status field
is "error" and that an agent-call-failed audit event is recorded. -/
theorem c3_counterexample_timeout :
    (∃ resp, (orchestrator_endpoint sNoAuth true false timeoutReq testUser none
        (.completed 0 none) (.raised "") (.reqError "Connection timed out")).result =
      .ok resp ∧ resp.status = "success" ∧ resp.status ≠ "error") ∧
    (∀ e ∈ (orchestrator_endpoint sNoAuth true false timeoutReq testUser none
        (.completed 0 none) (.raised "") (.reqError "Connection timed out")).events,
      e.event_type ≠ .agent_call_failure) ∧
    (({ event_type := .agent_call_success, agent_type := some "python",
        success := true, error := none } : AuditEvent) ∈
      (orchestrator_endpoint sNoAuth true false timeoutReq testUser none
        (.completed 0 none) (.raised "") (.reqError "Connection timed out")).events) := by
  refine ⟨⟨_, rfl, rfl, by decide⟩, by decide, by decide⟩

/-- C3 amended: when the downstream call fails with a connection error or
timeout, the endpoint completes with HTTP 200 whose top-level status is
"success", whose message is the diagnostic identifying the unreachable
agent, and whose embedded sub-agent response has status "error" with the
same diagnostic; the audit event recorded for the call is
agent_call_success (the agent_call_failure event is only emitted when
call_sub_agent itself raises). -/
theorem c3_amended_timeout_embedded_failure (s : Settings)
    (allowAny routerEnabled : Bool) (req : OrchestratorRequest)
    (current_user : UserClaims) (credentials : Option String)
    (oracle : OracleOutcome) (msal : MsalOutcome) (estr : String)
    (hauthz : check_agent_access allowAny current_user.roles
      (select_agent_async routerEnabled oracle req.message req.preferred_agent) = true)
    (hobo : (s.REQUIRE_AUTH && credentials.isSome) = true →
      ∃ t, acquire_token_on_behalf_of s msal = .ok t) :
    ∃ resp,
      (orchestrator_endpoint s allowAny routerEnabled req current_user credentials
         oracle msal (.reqError estr)).result = .ok resp ∧
      resp.status = "success" ∧
      resp.message = "Failed to reach " ++
        (select_agent_async routerEnabled oracle req.message req.preferred_agent).value ++
        " agent: " ++ estr ∧
      resp.sub_agent_responses =
        [⟨(select_agent_async routerEnabled oracle req.message req.preferred_agent).value,
          "Failed to reach " ++
            (select_agent_async routerEnabled oracle req.message req.preferred_agent).value ++
            " agent: " ++ estr,
          "error", [("error", estr)]⟩] ∧
      ({ event_type := .agent_call_success,
         agent_type := some (select_agent_async routerEnabled oracle req.message
           req.preferred_agent).value,
         success := true, error := none } : AuditEvent) ∈
        (orchestrator_endpoint s allowAny routerEnabled req current_user credentials
           oracle msal (.reqError estr)).events := by
  have hne : ¬select_agent_async routerEnabled oracle req.message req.preferred_agent =
      .AUTO := select_agent_async_ne_auto routerEnabled oracle req.message
      req.preferred_agent
  have hreq : require_agent_access allowAny current_user.roles
      (select_agent_async routerEnabled oracle req.message req.preferred_agent) =
      .ok () := by
    simp only [require_agent_access]
    rw [if_pos hauthz]
  simp only [orchestrator_endpoint]
  rcases hsel : select_agent_async routerEnabled oracle req.message req.preferred_agent
    with _ | _ | _
  case PYTHON =>
    rw [hsel] at hreq
    rw [hreq]
    cases hcond : (s.REQUIRE_AUTH && credentials.isSome) with
    | true =>
      obtain ⟨t, ht⟩ := hobo hcond
      rw [if_pos rfl, ht]
      refine ⟨_, rfl, rfl, rfl, rfl, ?_⟩
      simp [dispatchStep, call_sub_agent]
    | false =>
      rw [if_neg Bool.false_ne_true]
      refine ⟨_, rfl, rfl, rfl, rfl, ?_⟩
      simp [dispatchStep, call_sub_agent]
  case DOTNET =>
    rw [hsel] at hreq
    rw [hreq]
    cases hcond : (s.REQUIRE_AUTH && credentials.isSome) with
    | true =>
      obtain ⟨t, ht⟩ := hobo hcond
      rw [if_pos rfl, ht]
      refine ⟨_, rfl, rfl, rfl, rfl, ?_⟩
      simp [dispatchStep, call_sub_agent]
    | false =>
      rw [if_neg Bool.false_ne_true]
      refine ⟨_, rfl, rfl, rfl, rfl, ?_⟩
      simp [dispatchStep, call_sub_agent]
  case AUTO => exact absurd hsel hne

/-- C3 amended witness: the concrete timeout flow of the counterexample,
read through the amended statement. -/
theorem c3_amended_timeout_witness :
    ∃ resp,
      (orchestrator_endpoint sNoAuth true false timeoutReq testUser none
         (.completed 0 none) (.raised "") (.reqError "Connection timed out")).result =
        .ok resp ∧
      resp.status = "success" ∧
      resp.message = "Failed to reach python agent: Connection timed out" ∧
      resp.sub_agent_responses =
        [⟨"python", "Failed to reach python agent: Connection timed out", "error",
          [("error", "Connection timed out")]⟩] ∧
      ({ event_type := .agent_call_success, agent_type := some "python",
         success := true, error := none } : AuditEvent) ∈
        (orchestrator_endpoint sNoAuth true false timeoutReq testUser none
           (.completed 0 none) (.raised "") (.reqError "Connection timed out")).events :=
  c3_amended_timeout_embedded_failure sNoAuth true false timeoutReq testUser none
    (.completed 0 none) (.raised "") "Connection timed out" (by decide)
    (fun h => absurd h (by decide))

/-- C4 counterexample: for the non-AUTO python agent, a 2xx downstream
response whose body fails JSON/dict parsing makes call_sub_agent raise the
parse exception to its caller instead of returning any error response, so
the claim that it never raises for non-AUTO agents is false at this
explicit input. -/
theorem c4_counterexample_malformed_body :
    call_sub_agent sNoAuth .PYTHON "hi" none none none
      (.okMalformed "Expecting value: line 1 column 1 (char 0)") =
      .error (.uncaught "Expecting value: line 1 column 1 (char 0)") ∧
    ∀ sent resp,
      call_sub_agent sNoAuth .PYTHON "hi" none none none
        (.okMalformed "Expecting value: line 1 column 1 (char 0)") ≠
        .ok (sent, resp) := by
  refine ⟨rfl, ?_⟩
  intro sent resp h
  rw [show call_sub_agent sNoAuth .PYTHON "hi" none none none
      (.okMalformed "Expecting value: line 1 column 1 (char 0)") =
      .error (.uncaught "Expecting value: line 1 column 1 (char 0)") from rfl] at h
  exact Except.noConfusion h

/-- C4 amended: for every non-AUTO agent, the two httpx failure modes are
converted to responses rather than raised: a non-2xx HTTP status yields
status "error" with the status code embedded in the message and the error
detail in the metadata, a connection failure or timeout yields status
"error" with the distinct failed-to-reach diagnostic, and a 2xx response
with a well-formed JSON dict body yields a response; but a 2xx response
whose body fails JSON/dict parsing raises uncaught to the caller, since
only httpx.HTTPStatusError and httpx.RequestError are handled. -/
theorem c4_amended_error_mapping (s : Settings) (agent_type : AgentType)
    (message : String) (obo_token conversation_id : Option String)
    (metadata : Option (List (String × String))) (outcome : DownstreamOutcome)
    (h : agent_type ≠ .AUTO) :
    (∀ code estr, outcome = .statusError code estr →
      ∃ sent resp,
        call_sub_agent s agent_type message obo_token conversation_id metadata outcome =
          .ok (sent, resp) ∧
        resp.status = "error" ∧
        resp.message = "Error calling " ++ agent_type.value ++ " agent: " ++ toString code ∧
        resp.metadata = [("error", estr)]) ∧
    (∀ estr, outcome = .reqError estr →
      ∃ sent resp,
        call_sub_agent s agent_type message obo_token conversation_id metadata outcome =
          .ok (sent, resp) ∧
        resp.status = "error" ∧
        resp.message = "Failed to reach " ++ agent_type.value ++ " agent: " ++ estr ∧
        resp.metadata = [("error", estr)]) ∧
    (∀ m st md, outcome = .ok m st md →
      ∃ sent resp,
        call_sub_agent s agent_type message obo_token conversation_id metadata outcome =
          .ok (sent, resp)) ∧
    (∀ m, outcome = .okMalformed m →
      call_sub_agent s agent_type message obo_token conversation_id metadata outcome =
        .error (.uncaught m)) := by
  simp only [call_sub_agent, if_neg h]
  refine ⟨?_, ?_, ?_, ?_⟩
  · intro code estr hco
    subst hco
    exact ⟨_, _, rfl, rfl, rfl, rfl⟩
  · intro estr hco
    subst hco
    exact ⟨_, _, rfl, rfl, rfl, rfl⟩
  · intro m st md hco
    subst hco
    exact ⟨_, _, rfl⟩
  · intro m hco
    subst hco
    rfl

/-- C4 amended witness: a 502 status error and a timeout mapped to error
responses, and a malformed 2xx body escaping as an exception. -/
theorem c4_amended_error_mapping_witness :
    (∃ sent resp,
      call_sub_agent ⟨false, "", ""⟩ .PYTHON "hi" none none none (.statusError 502 "boom") =
        .ok (sent, resp) ∧ resp.status = "error" ∧
      resp.message = "Error calling python agent: 502" ∧
      resp.metadata = [("error", "boom")]) ∧
    (∃ sent resp,
      call_sub_agent ⟨false, "", ""⟩ .DOTNET "hi" none none none (.reqError "timed out") =
        .ok (sent, resp) ∧ resp.status = "error" ∧
      resp.message = "Failed to reach dotnet agent: timed out" ∧
      resp.metadata = [("error", "timed out")]) ∧
    call_sub_agent ⟨false, "", ""⟩ .DOTNET "hi" none none none (.okMalformed "bad json") =
      .error (.uncaught "bad json") := by
  refine ⟨?_, ?_, ?_⟩
  · obtain ⟨sent, resp, hok, h1, h2, h3⟩ :=
      (c4_amended_error_mapping ⟨false, "", ""⟩ .PYTHON "hi" none none none
        (.statusError 502 "boom") (by decide)).1 502 "boom" rfl
    exact ⟨sent, resp, hok, h1, h2, h3⟩
  · obtain ⟨sent, resp, hok, h1, h2, h3⟩ :=
      (c4_amended_error_mapping ⟨false, "", ""⟩ .DOTNET "hi" none none none
        (.reqError "timed out") (by decide)).2.1 "timed out" rfl
    exact ⟨sent, resp, hok, h1, h2, h3⟩
  · exact (c4_amended_error_mapping ⟨false, "", ""⟩ .DOTNET "hi" none none none
      (.okMalformed "bad json") (by decide)).2.2.2 "bad json" rfl

/-- C5: a non-AUTO explicit preference is returned unchanged by both the
async and the sync selector, for every message and every oracle behaviour
(the oracle outcome is universally quantified, so it is never consulted). -/
theorem c5_explicit_preference_wins (message : String) (preferred_agent : AgentType)
    (routerEnabled : Bool) (out : OracleOutcome)
    (h : preferred_agent ≠ .AUTO) :
    select_agent_async routerEnabled out message preferred_agent = preferred_agent ∧
    select_agent message preferred_agent = preferred_agent := by
  constructor
  · simp only [select_agent_async]
    split
    · rfl
    · rename_i hp
      simp only [bne_iff_ne, ne_eq, not_not] at hp
      exact absurd hp h
  · simp only [select_agent]
    split
    · rfl
    · rename_i hp
      simp only [bne_iff_ne, ne_eq, not_not] at hp
      exact absurd hp h

/-- C5 witness: a DOTNET preference beats a python-keyword message even with
the oracle answering python. -/
theorem c5_explicit_preference_wins_witness :
    select_agent_async true (.completed 0 (some "python")) "use pandas" .DOTNET = .DOTNET ∧
    select_agent "use pandas" .DOTNET = .DOTNET :=
  c5_explicit_preference_wins "use pandas" .DOTNET true (.completed 0 (some "python"))
    (by decide)

/-- C6: keyword routing scores each agent by the number of its fixed
keywords occurring as substrings of the lower-cased message (each keyword
counted once), returns the strictly higher scorer, and on any tie,
including 0-0, returns the PYTHON default. -/
theorem c6_keyword_scoring (message : String) :
    (python_keywords.countP (fun k => strIncludes (lowerStr message) k) >
       dotnet_keywords.countP (fun k => strIncludes (lowerStr message) k) →
       select_by_keywords message = .PYTHON) ∧
    (dotnet_keywords.countP (fun k => strIncludes (lowerStr message) k) >
       python_keywords.countP (fun k => strIncludes (lowerStr message) k) →
       select_by_keywords message = .DOTNET) ∧
    (python_keywords.countP (fun k => strIncludes (lowerStr message) k) =
       dotnet_keywords.countP (fun k => strIncludes (lowerStr message) k) →
       select_by_keywords message = .PYTHON) := by
  simp only [select_by_keywords]
  refine ⟨fun h => ?_, fun h => ?_, fun h => ?_⟩
  · rw [if_pos h]
  · rw [if_neg (by omega), if_pos h]
  · rw [if_neg (by omega), if_neg (by omega)]

/-- C6 witness: a python-keyword message, a payroll-keyword message, and a
0-0 tie resolving to the PYTHON default. -/
theorem c6_keyword_scoring_witness :
    ((python_keywords.countP (fun k => strIncludes (lowerStr "use pandas") k) >
       dotnet_keywords.countP (fun k => strIncludes (lowerStr "use pandas") k)) ∧
     select_by_keywords "use pandas" = .PYTHON) ∧
    ((dotnet_keywords.countP (fun k => strIncludes (lowerStr "my pto balance") k) >
       python_keywords.countP (fun k => strIncludes (lowerStr "my pto balance") k)) ∧
     select_by_keywords "my pto balance" = .DOTNET) ∧
    select_by_keywords "zzz" = .PYTHON :=
  ⟨⟨by decide, (c6_keyword_scoring "use pandas").1 (by decide)⟩,
   ⟨by decide, (c6_keyword_scoring "my pto balance").2.1 (by decide)⟩,
   (c6_keyword_scoring "zzz").2.2 (by decide)⟩

/-- C7: for every message, preference (AUTO included), oracle enablement and
oracle outcome, both selector variants return one of the two concrete
agents, never the AUTO placeholder, so the value handed to the
authorization gate and to dispatch is always concrete. -/
theorem c7_selection_never_auto (routerEnabled : Bool) (out : OracleOutcome)
    (message : String) (preferred_agent : AgentType) :
    (select_agent_async routerEnabled out message preferred_agent = .PYTHON ∨
       select_agent_async routerEnabled out message preferred_agent = .DOTNET) ∧
    (select_agent message preferred_agent = .PYTHON ∨
       select_agent message preferred_agent = .DOTNET) := by
  constructor
  · have h := select_agent_async_ne_auto routerEnabled out message preferred_agent
    cases ha : select_agent_async routerEnabled out message preferred_agent
    · exact Or.inl rfl
    · exact Or.inr rfl
    · exact absurd ha h
  · simp only [select_agent]
    split
    · rename_i hp
      cases preferred_agent
      · exact Or.inl rfl
      · exact Or.inr rfl
      · simp at hp
    · exact select_by_keywords_cases message

/-- C8: with the allow-any-authenticated fallback disabled, a caller whose
only role is viewer is denied every agent by check_agent_access, gets the
403 from require_agent_access, and in the Scenario B flow the request ends
with that 403 after an authorization_denied audit event is recorded. -/
theorem c8_viewer_denied_all_agents :
    (∀ agent_type, check_agent_access false ["viewer"] agent_type = false) ∧
    (∀ agent_type, require_agent_access false ["viewer"] agent_type =
       .error ⟨403, accessDeniedDetail ["viewer"] agent_type⟩) ∧
    (orchestrator_endpoint sNoAuth false false scenarioBReq viewerUser none
        (.completed 0 none) (.raised "") (.ok none none none)).result =
      .error ⟨403, accessDeniedDetail ["viewer"] .PYTHON⟩ ∧
    ({ event_type := .authorization_denied, agent_type := none, success := false,
       error := some (accessDeniedDetail ["viewer"] .PYTHON) } : AuditEvent) ∈
      (orchestrator_endpoint sNoAuth false false scenarioBReq viewerUser none
         (.completed 0 none) (.raised "") (.ok none none none)).events := by
  refine ⟨?_, ?_, rfl, ?_⟩
  · intro agent_type
    cases agent_type <;> rfl
  · intro agent_type
    cases agent_type <;> rfl
  · decide

/-- C9 counterexample: an oracle response containing both agent labels is
ambiguous, yet route_with_ai returns a selection (DOTNET) rather than the
no-selection None the claim requires. -/
theorem c9_counterexample_both_labels :
    route_with_ai true (.completed 0 (some "dotnet or python")) = some .DOTNET ∧
    route_with_ai true (.completed 0 (some "dotnet or python")) ≠ none := by
  constructor
  · decide
  · decide

/-- C9 amended: route_with_ai never raises (it is total into Option) and
maps every invocation error, non-zero exit, JSON parse failure and
label-free or empty response to None; but label matching is ordered, not
unambiguous: any response whose stripped lower-cased text contains "dotnet"
selects DOTNET even if it also contains "python", and a response containing
"python" but not "dotnet" selects PYTHON. -/
theorem c9_oracle_parsing :
    (∀ e m, route_with_ai e (.invokeError m) = none) ∧
    (∀ e rc rf, rc ≠ 0 → route_with_ai e (.completed rc rf) = none) ∧
    (∀ e, route_with_ai e (.completed 0 none) = none) ∧
    (∀ r, strIncludes (lowerStr (stripStr r)) "dotnet" = true →
       route_with_ai true (.completed 0 (some r)) = some .DOTNET) ∧
    (∀ r, strIncludes (lowerStr (stripStr r)) "dotnet" = false →
       strIncludes (lowerStr (stripStr r)) "python" = true →
       route_with_ai true (.completed 0 (some r)) = some .PYTHON) ∧
    (∀ r, strIncludes (lowerStr (stripStr r)) "dotnet" = false →
       strIncludes (lowerStr (stripStr r)) "python" = false →
       route_with_ai true (.completed 0 (some r)) = none) ∧
    route_with_ai true (.completed 0 (some "")) = none := by
  refine ⟨?_, ?_, ?_, ?_, ?_, ?_, by decide⟩
  · intro e m
    simp only [route_with_ai]
    split <;> rfl
  · intro e rc rf h
    simp only [route_with_ai]
    split
    · rfl
    · rw [if_pos]
      simpa using h
  · intro e
    simp only [route_with_ai]
    split <;> rfl
  · intro r h
    simp only [route_with_ai]
    rw [if_neg (by simp), if_neg (by simp), if_pos h]
  · intro r h1 h2
    simp only [route_with_ai]
    rw [if_neg (by simp), if_neg (by simp), if_neg (by simp [h1]), if_pos h2]
  · intro r h1 h2
    simp only [route_with_ai]
    rw [if_neg (by simp), if_neg (by simp), if_neg (by simp [h1]), if_neg (by simp [h2])]

/-- C9 amended witness: one concrete input per parsing case. -/
theorem c9_oracle_parsing_witness :
    route_with_ai true (.invokeError "claude not found") = none ∧
    route_with_ai false (.completed 1 (some "python")) = none ∧
    route_with_ai true (.completed 0 (some " DOTNET ")) = some .DOTNET ∧
    route_with_ai true (.completed 0 (some "python!")) = some .PYTHON ∧
    route_with_ai true (.completed 0 (some "neither")) = none :=
  ⟨c9_oracle_parsing.1 true "claude not found",
   c9_oracle_parsing.2.1 false 1 (some "python") (by decide),
   c9_oracle_parsing.2.2.2.1 " DOTNET " (by decide),
   c9_oracle_parsing.2.2.2.2.1 "python!" (by decide) (by decide),
   c9_oracle_parsing.2.2.2.2.2.1 "neither" (by decide) (by decide)⟩

/-- C10: whenever the agent is initialized, both run_agent and
run_agent_stream leave the stored per-request user token cleared to None on
completion, normal or raised; a single invocation from a token-free state
always ends token-free, and so does any sequence of invocations, so a
stored inbound credential never persists into a later invocation. -/
theorem c10_user_token_cleared :
    (∀ st m c u o, st.agentInit = true →
       (run_agent st m c u o).1.current_user_token = none ∧
       (run_agent_stream st m c u o).1.current_user_token = none) ∧
    (∀ st i, st.current_user_token = none →
       (applyInvocation st i).current_user_token = none) ∧
    (∀ st invs, st.current_user_token = none →
       (runSeq st invs).current_user_token = none) := by
  have hrun : ∀ st m c u o, st.current_user_token = none →
      (run_agent st m c u o).1.current_user_token = none := by
    intro st m c u o h
    simp only [run_agent]
    split
    · exact h
    · rfl
  have hstream : ∀ st m c u o, st.current_user_token = none →
      (run_agent_stream st m c u o).1.current_user_token = none := by
    intro st m c u o h
    simp only [run_agent_stream]
    split
    · exact h
    · rfl
  have hinv : ∀ st i, st.current_user_token = none →
      (applyInvocation st i).current_user_token = none := by
    intro st i h
    match i with
    | .run m c u o => exact hrun st m c u o h
    | .stream m c u o => exact hstream st m c u o h
  refine ⟨?_, hinv, ?_⟩
  · intro st m c u o h
    constructor
    · simp only [run_agent, h, Bool.not_true, if_neg Bool.false_ne_true]
    · simp only [run_agent_stream, h, Bool.not_true, if_neg Bool.false_ne_true]
  · intro st invs
    induction invs generalizing st with
    | nil => intro h; exact h
    | cons i rest ih =>
      intro h
      exact ih (applyInvocation st i) (hinv st i h)

/-- C10 witness: a raised run clears a stored token; a run/stream sequence
from the initial state ends token-free. -/
theorem c10_user_token_cleared_witness :
    (run_agent ⟨true, some "secret", []⟩ "msg" (some "c1") (some "tok")
       (.raised "boom")).1.current_user_token = none ∧
    (runSeq ⟨true, none, []⟩
       [.run "a" none (some "tok") (.success "ok"),
        .stream "b" (some "c2") (some "tok2") (.raised "err")]).current_user_token =
      none :=
  ⟨(c10_user_token_cleared.1 ⟨true, some "secret", []⟩ "msg" (some "c1") (some "tok")
      (.raised "boom") rfl).1,
   c10_user_token_cleared.2.2 ⟨true, none, []⟩
     [.run "a" none (some "tok") (.success "ok"),
      .stream "b" (some "c2") (some "tok2") (.raised "err")] rfl⟩

end Orch
